import Mathlib

/-!
Verification of the licensure matching-and-rendering engine
(src/config/comment.rs and src/config/license.rs) against its
natural-language specification.

Strings that the Rust code splits character-by-character are embedded as
`List Char`; strings used only for equality tests or carried opaquely are
embedded as `String`.
-/

namespace Licensure

/-- Embedding of Rust `str::split(sep)` over a character list: splits on
every occurrence of `sep`, keeping empty pieces, and always yields at
least one piece (the empty input yields `[[]]`). -/
def splitChar (sep : Char) : List Char → List (List Char)
  | [] => [[]]
  | c :: rest =>
    if c = sep then
      [] :: splitChar sep rest
    else
      match splitChar sep rest with
      | [] => [[c]]
      | piece :: pieces => (c :: piece) :: pieces

theorem splitChar_ne_nil (sep : Char) (l : List Char) : splitChar sep l ≠ [] := by
  cases l with
  | nil => simp [splitChar]
  | cons c rest =>
    simp only [splitChar]
    split
    · simp
    · split
      · simp
      · simp

theorem splitChar_not_mem (sep : Char) (l : List Char) (h : sep ∉ l) :
    splitChar sep l = [l] := by
  induction l with
  | nil => rfl
  | cons c rest ih =>
    simp only [List.mem_cons, not_or] at h
    simp only [splitChar]
    rw [if_neg (fun hc => h.1 hc.symm)]
    rw [ih h.2]

theorem splitChar_length_ge_two (sep : Char) (l : List Char) (h : sep ∈ l) :
    2 ≤ (splitChar sep l).length := by
  induction l with
  | nil => simp at h
  | cons c rest ih =>
    simp only [splitChar]
    by_cases hc : c = sep
    · rw [if_pos hc]
      have hne := splitChar_ne_nil sep rest
      have hlen : 1 ≤ (splitChar sep rest).length := by
        cases hrest : splitChar sep rest with
        | nil => exact absurd hrest hne
        | cons a as => simp
      simpa using Nat.succ_le_succ hlen
    · rw [if_neg hc]
      have hmem : sep ∈ rest := by
        rcases List.mem_cons.mp h with h1 | h2
        · exact absurd h1.symm hc
        · exact h2
      have h2 := ih hmem
      cases hrest : splitChar sep rest with
      | nil => exact absurd hrest (splitChar_ne_nil sep rest)
      | cons piece pieces =>
        rw [hrest] at h2
        simpa using h2

theorem splitChar_getLast?_append (sep : Char) (a b : List Char) (hb : sep ∉ b) :
    (splitChar sep (a ++ sep :: b)).getLast? = some b := by
  induction a with
  | nil =>
    simp only [List.nil_append, splitChar, if_pos rfl]
    rw [splitChar_not_mem sep b hb]
    simp
  | cons c a' ih =>
    simp only [List.cons_append, splitChar]
    cases hx : splitChar sep (a' ++ sep :: b) with
    | nil => exact absurd hx (splitChar_ne_nil _ _)
    | cons piece pieces =>
      have hmem : sep ∈ a' ++ sep :: b := by simp
      have hlen := splitChar_length_ge_two sep (a' ++ sep :: b) hmem
      rw [hx] at hlen
      cases pieces with
      | nil => simp at hlen
      | cons y ys =>
        rw [hx] at ih
        by_cases hc : c = sep
        · rw [if_pos hc]
          rw [List.getLast?_cons_cons]
          exact ih
        · rw [if_neg hc]
          rw [List.getLast?_cons_cons]
          rw [List.getLast?_cons_cons] at ih
          exact ih

namespace Comment

/-- Embedding of `get_filetype` (comment.rs lines 26-29):
`filename.split('.').last().unwrap_or_default()`. `split` always yields
at least one piece, so `getLast?` is always `some`; the `getD []`
mirrors `unwrap_or_default`. -/
def get_filetype (filename : List Char) : List Char :=
  ((splitChar '.' filename).getLast?).getD []

/-- Embedding of the `FileType` enum (comment.rs lines 50-55). -/
inductive FileType where
  | Single (ext : String)
  | List (extensions : List String)

/-- Embedding of `FileType::matches` (comment.rs lines 57-64). -/
def FileType.matches : FileType → String → Bool
  | .Single ext, ft => ext == "any" || ext == ft
  | .List extensions, ft => extensions.any (fun ext => ext == ft)

/-- Embedding of the comment-rule `Config` struct (comment.rs lines
66-74), restricted to the fields the matcher reads. `files` is the
optional `RegexList`; its compiled regex matcher lives outside src/, so
it is embedded as an opaque match predicate (`is_match`). -/
structure Config where
  extension : FileType
  files : Option (String → Bool)

/-- Embedding of `Config::matches` (comment.rs lines 89-99). -/
def Config.matches (c : Config) (file_type filename : String) : Bool :=
  if c.extension.matches file_type then
    match c.files with
    | some files => files filename
    | none => true
  else
    false

end Comment

namespace License

/-- Embedding of the `SPDXLicenseInfo` struct (license.rs lines 66-72):
a parsed registry response with required `licenseText` and optional
`standardLicenseHeader`. -/
structure SPDXLicenseInfo where
  license_text : String
  license_header : Option String
deriving DecidableEq

/-- Embedding of the final step of `fetch_template` (license.rs lines
146-149): the template body chosen from a successfully fetched and
parsed registry response. The network transport and status handling
(lines 109-144) terminate the process on failure and produce no value,
so only the successful tail is a function. -/
def fetch_template_body (info : SPDXLicenseInfo) : String :=
  match info.license_header with
  | some header => header
  | none => info.license_text

/-- Modelled from the spec: the `Context` struct of `crate::template` is
not under src/; its fields are exactly those license.rs populates at
lines 200-206 (end year, start year, identifier, authors, word-wrap
flag). Authors are carried opaquely. -/
structure Context where
  end_year : Option (List Char)
  start_year : Option (List Char)
  ident : String
  authors : String
  unwrap_text : Bool
deriving DecidableEq

/-- Modelled from the spec: the `Template` of `crate::template` is not
under src/; it carries the template body, the rendering context, and
"a flag marking the template as belonging to the standard header
family" (spec section 3, LicenseContext). -/
structure Template where
  body : String
  ctx : Context
  spdx_template : Bool
deriving DecidableEq

/-- Modelled from the spec: `Template::new` stores the body and context;
a freshly built template is not marked as a standard-header template. -/
def Template.new (body : String) (ctx : Context) : Template :=
  { body := body, ctx := ctx, spdx_template := false }

/-- Modelled from the spec: `set_spdx_template` sets the standard-header
flag to the given value. -/
def Template.set_spdx_template (t : Template) (b : Bool) : Template :=
  { t with spdx_template := b }

/-- Embedding of the license `Config` struct (license.rs lines 74-94),
restricted to the fields `get_template` reads. The `files` matcher and
`replaces` regexes are not consulted by `get_template` and are omitted. -/
structure Config where
  ident : String
  authors : String
  end_year : Option (List Char)
  start_year : Option (List Char)
  use_dynamic_year_ranges : Bool
  template : Option String
  auto_template : Option Bool
  unwrap_text : Bool

/-- Embedding of the year extraction in `get_template` (license.rs lines
181-188): `date.split(' ').nth(4)`, i.e. the space-separated field at
0-indexed position 4, `none` when the date has fewer than five fields
(in the source, `expect` then aborts the process). -/
def extractYear (date : List Char) : Option (List Char) :=
  (splitChar ' ' date)[4]?

/-- Embedding of the year-resolution block of `get_template` (license.rs
lines 167-196). `nowDate` is the `Local::now()` string formatted with
"%a %b %d %T %Y %z"; `dates` is the output of
`get_git_dates_for_file`. `.error` is the `expect` panic with its
message; the slice patterns `[first, .., last]` / `[first]` / `_`
become the three list cases. -/
def resolveYears (c : Config) (nowDate : List Char) (dates : List (List Char)) :
    Except String (Option (List Char) × Option (List Char)) :=
  if c.use_dynamic_year_ranges then
    let pair : List Char × List Char :=
      match dates with
      | [] => (nowDate, nowDate)
      | [d] => (d, d)
      | first :: d2 :: rest => (first, (d2 :: rest).getLast (List.cons_ne_nil d2 rest))
    match extractYear pair.2, extractYear pair.1 with
    | some created_year, some last_updated_year =>
        .ok (some last_updated_year, some created_year)
    | none, _ => .error "Unable to parse created year!"
    | _, none => .error "Unable to parse last updated year!"
  else
    .ok (c.end_year, c.start_year)

/-- Result of `get_template` (license.rs lines 152-214): a template, or
one of the two fatal exits — the `process::exit(1)` configuration error
(line 161-162) or the `expect` panic on year extraction. -/
inductive TemplateResult where
  | ok (t : Template)
  | configExit (msg : String)
  | parseFatal (msg : String)
deriving DecidableEq

/-- Embedding of `Config::get_template` (license.rs lines 152-214).
The effectful collaborators are passed as inputs: `fetched` is what a
successful `fetch_template` call would return, `nowDate` the formatted
current time, `dates` the git dates for the file. -/
def get_template (c : Config) (fetched : String) (nowDate : List Char)
    (dates : List (List Char)) : TemplateResult :=
  match (match c.template with
         | some t => some t
         | none => if c.auto_template.getD false then some fetched else none) with
  | none =>
      .configExit ("auto_template not enabled and no template provided, please add a template option to the license definition for " ++ c.ident ++ ". Exitting")
  | some t =>
      match resolveYears c nowDate dates with
      | .error msg => .parseFatal msg
      | .ok years =>
          let tmpl := Template.new t
            { end_year := years.1, start_year := years.2,
              ident := c.ident, authors := c.authors,
              unwrap_text := c.unwrap_text }
          if c.auto_template.getD false then
            .ok (tmpl.set_spdx_template true)
          else
            .ok tmpl

end License

/-- A date string has at least five space-separated fields exactly when
the year field at position 4 is extractable. -/
theorem extractYear_isSome_of_length (d : List Char)
    (h : 5 ≤ (splitChar ' ' d).length) : ∃ y, License.extractYear d = some y := by
  unfold License.extractYear
  exact ⟨(splitChar ' ' d)[4], List.getElem?_eq_getElem (by omega)⟩

/- Concrete fixtures used by the closed witness theorems. -/

def matchPy : String → Bool := fun fn => fn == "main.py"

def cfg0 : Comment.Config := { extension := .Single "py", files := some matchPy }

def date2024 : List Char := "Wed May 29 04:54:58 2024 +0100".toList

def date2020 : List Char := "Mon Jan 02 00:00:00 2020 +0000".toList

def nowC : List Char := "Sun Oct 12 00:00:00 2025 +0000".toList

def cDyn : License.Config :=
  { ident := "MIT", authors := "Jane Doe",
    end_year := some "1999".toList, start_year := some "1998".toList,
    use_dynamic_year_ranges := true,
    template := some "TMPL", auto_template := none, unwrap_text := true }

def cStatic : License.Config :=
  { ident := "MIT", authors := "Jane Doe",
    end_year := some "2024".toList, start_year := some "2020".toList,
    use_dynamic_year_ranges := false,
    template := some "TMPL", auto_template := none, unwrap_text := true }

def cAuto : License.Config :=
  { cStatic with auto_template := some true }

def cNoTmpl : License.Config :=
  { cStatic with template := none, auto_template := some false }

def tmplC : License.Template :=
  { body := "TMPL",
    ctx := { end_year := some "2024".toList, start_year := some "2020".toList,
             ident := "MIT", authors := "Jane Doe", unwrap_text := true },
    spdx_template := false }

def tmplAuto : License.Template :=
  { tmplC with spdx_template := true }

/-- C1: counterexample — in the list-of-extensions form the "any"
sentinel is not honoured: a rule whose extension list contains "any"
fails the extension check for extension "py" even though the extension
set contains "any". -/
theorem c1_list_any_counterexample :
    "any" ∈ ["any"] ∧ Comment.FileType.matches (.List ["any"]) "py" = false := by
  decide

/-- C1 (amended): the "any" sentinel matches every extension, including
the empty extension, in the single-extension form only; in the
list-of-extensions form there is no sentinel — the extension check
succeeds exactly when the list contains the file's extension
literally. -/
theorem c1_extension_any_sentinel (ft : String) (exts : List String) :
    Comment.FileType.matches (.Single "any") ft = true ∧
    (Comment.FileType.matches (.List exts) ft = true ↔ ft ∈ exts) := by
  constructor
  · simp [Comment.FileType.matches]
  · simp [Comment.FileType.matches, List.any_eq_true, beq_iff_eq]

/-- C2: counterexample — a filename containing no '.' does not yield the
empty extension: `get_filetype "Makefile"` is `"Makefile"` itself (the
Rust `split('.')` iterator always yields at least one piece, so
`unwrap_or_default` never fires). -/
theorem c2_no_dot_counterexample :
    ('.' ∉ "Makefile".toList) ∧
    Comment.get_filetype "Makefile".toList = "Makefile".toList ∧
    "Makefile".toList ≠ ([] : List Char) := by
  decide

/-- C2 (amended): file-extension extraction returns the substring after
the last '.' in the filename, and a filename containing no '.' yields
the whole filename itself (not the empty string). -/
theorem c2_get_filetype_amended (filename : List Char) :
    ('.' ∉ filename → Comment.get_filetype filename = filename) ∧
    (∀ a b, '.' ∉ b → filename = a ++ '.' :: b →
      Comment.get_filetype filename = b) := by
  constructor
  · intro h
    unfold Comment.get_filetype
    rw [splitChar_not_mem '.' filename h]
    rfl
  · intro a b hb hEq
    subst hEq
    unfold Comment.get_filetype
    rw [splitChar_getLast?_append '.' a b hb]
    rfl

/-- Witness for C2's amended theorem at concrete filenames. -/
theorem c2_get_filetype_amended_witness :
    Comment.get_filetype "Makefile".toList = "Makefile".toList ∧
    Comment.get_filetype "main.py".toList = "py".toList :=
  ⟨(c2_get_filetype_amended "Makefile".toList).1 (by decide),
   (c2_get_filetype_amended "main.py".toList).2 "main".toList "py".toList
     (by decide) (by decide)⟩

/-- C3: if the extension check fails, `Config::matches` returns false
for every filename (so the filename regex cannot influence the result);
if it passes and a files matcher is configured the result is that
matcher applied to the full path; if it passes and no matcher is
configured the result is true. -/
theorem c3_config_matches_spec (c : Comment.Config) (ft fn : String) :
    (c.extension.matches ft = false → c.matches ft fn = false) ∧
    (c.extension.matches ft = true →
      (∀ p, c.files = some p → c.matches ft fn = p fn) ∧
      (c.files = none → c.matches ft fn = true)) := by
  unfold Comment.Config.matches
  constructor
  · intro h
    rw [h]
    simp
  · intro h
    rw [h]
    constructor
    · intro p hp
      rw [hp]
      simp
    · intro hn
      rw [hn]
      simp

/-- Witness for C3 at a concrete rule and file. -/
theorem c3_config_matches_spec_witness :
    Comment.Config.matches cfg0 "py" "main.py" = true ∧
    Comment.Config.matches cfg0 "rs" "main.py" = false :=
  ⟨by
    have h := (c3_config_matches_spec cfg0 "py" "main.py").2 (by decide)
    rw [h.1 matchPy rfl]
    rfl,
   (c3_config_matches_spec cfg0 "rs" "main.py").1 (by decide)⟩

/-- C4: with `use_dynamic_year_ranges` set and a non-empty date
sequence, the statically configured years are ignored (the conclusion
holds for every configured `end_year`/`start_year`): the first date in
the sequence supplies the end (last-updated) year, the last date
supplies the start (created) year, and a single-element sequence
supplies the same year for both. -/
theorem c4_dynamic_years_nonempty (c : License.Config) (nowDate : List Char)
    (hdyn : c.use_dynamic_year_ranges = true) :
    (∀ d d2 rest ly cy,
      License.extractYear d = some ly →
      License.extractYear ((d2 :: rest).getLast (List.cons_ne_nil d2 rest)) = some cy →
      License.resolveYears c nowDate (d :: d2 :: rest) = .ok (some ly, some cy)) ∧
    (∀ d y, License.extractYear d = some y →
      License.resolveYears c nowDate [d] = .ok (some y, some y)) := by
  constructor
  · intro d d2 rest ly cy hfirst hlast
    unfold License.resolveYears
    rw [hdyn]
    simp [hfirst, hlast]
  · intro d y hy
    unfold License.resolveYears
    rw [hdyn]
    simp [hy]

/-- Witness for C4: a two-element history and a one-element history. -/
theorem c4_dynamic_years_nonempty_witness :
    License.resolveYears cDyn nowC [date2024, date2020] =
      .ok (some "2024".toList, some "2020".toList) ∧
    License.resolveYears cDyn nowC [date2024] =
      .ok (some "2024".toList, some "2024".toList) :=
  ⟨(c4_dynamic_years_nonempty cDyn nowC rfl).1 date2024 date2020 []
     "2024".toList "2020".toList (by decide) (by decide),
   (c4_dynamic_years_nonempty cDyn nowC rfl).2 date2024 "2024".toList (by decide)⟩

/-- C5: with `use_dynamic_year_ranges` set and an empty date sequence,
the resolver is not fatal: it falls back to the current wall-clock date
string, whose year field supplies both the created and the last-updated
year. -/
theorem c5_dynamic_years_empty_fallback (c : License.Config) (nowDate : List Char)
    (y : List Char) (hdyn : c.use_dynamic_year_ranges = true)
    (hy : License.extractYear nowDate = some y) :
    License.resolveYears c nowDate [] = .ok (some y, some y) := by
  unfold License.resolveYears
  rw [hdyn]
  simp [hy]

/-- Witness for C5 at a concrete current-date string. -/
theorem c5_dynamic_years_empty_fallback_witness :
    License.resolveYears cDyn nowC [] = .ok (some "2025".toList, some "2025".toList) :=
  c5_dynamic_years_empty_fallback cDyn nowC "2025".toList rfl (by decide)

/-- C6: year extraction takes the space-separated field at 0-indexed
position 4 and is fatal exactly when that field is absent (fewer than
five fields); under the precondition that every date in the sequence
and the current-date fallback string have at least five fields, the
fatal extraction-failure branch of the resolver is unreachable. -/
theorem c6_year_extraction_safety :
    (∀ d : List Char,
      License.extractYear d = none ↔ (splitChar ' ' d).length ≤ 4) ∧
    (∀ (c : License.Config) (nowDate : List Char) (dates : List (List Char)),
      (∀ d ∈ dates, 5 ≤ (splitChar ' ' d).length) →
      5 ≤ (splitChar ' ' nowDate).length →
      ∀ msg, License.resolveYears c nowDate dates ≠ .error msg) := by
  constructor
  · intro d
    unfold License.extractYear
    exact List.getElem?_eq_none_iff
  · intro c nowDate dates hall hnow msg
    unfold License.resolveYears
    cases hdyn : c.use_dynamic_year_ranges with
    | false => simp
    | true =>
      simp only [if_true]
      cases dates with
      | nil =>
        obtain ⟨y, hy⟩ := extractYear_isSome_of_length nowDate hnow
        simp [hy]
      | cons d rest =>
        cases rest with
        | nil =>
          obtain ⟨y, hy⟩ := extractYear_isSome_of_length d
            (hall d (List.mem_cons_self d []))
          simp [hy]
        | cons d2 rest' =>
          obtain ⟨ly, hly⟩ := extractYear_isSome_of_length d
            (hall d (List.mem_cons_self d (d2 :: rest')))
          have hmem : (d2 :: rest').getLast (List.cons_ne_nil d2 rest') ∈ d :: d2 :: rest' :=
            List.mem_cons_of_mem d (List.getLast_mem (List.cons_ne_nil d2 rest'))
          obtain ⟨cy, hcy⟩ := extractYear_isSome_of_length _ (hall _ hmem)
          simp [hly, hcy]

/-- Witness for C6 at a concrete one-element history. -/
theorem c6_year_extraction_safety_witness :
    License.resolveYears cDyn nowC [date2024] ≠ .error "Unable to parse created year!" :=
  c6_year_extraction_safety.2 cDyn nowC [date2024] (by decide) (by decide)
    "Unable to parse created year!"

/-- C7: when a static template string is configured, `get_template` uses
it unconditionally — the result does not depend on what a remote fetch
would have returned (so no fetch is observable), and whenever it
returns a template, that template's body is the configured static
string. -/
theorem c7_static_template_unconditional (c : License.Config) (t : String)
    (fetched1 fetched2 : String) (nowDate : List Char) (dates : List (List Char))
    (ht : c.template = some t) :
    License.get_template c fetched1 nowDate dates =
      License.get_template c fetched2 nowDate dates ∧
    (∀ tmpl, License.get_template c fetched1 nowDate dates = .ok tmpl →
      tmpl.body = t) := by
  unfold License.get_template
  rw [ht]
  constructor
  · rfl
  · intro tmpl h
    cases hres : License.resolveYears c nowDate dates with
    | error msg =>
      rw [hres] at h
      simp at h
    | ok years =>
      rw [hres] at h
      cases hab : c.auto_template.getD false with
      | true =>
        rw [hab] at h
        cases h
        rfl
      | false =>
        rw [hab] at h
        cases h
        rfl

/-- Witness for C7: two different would-be fetch results give the same
template, whose body is the static string. -/
theorem c7_static_template_unconditional_witness :
    License.get_template cStatic "FETCHED_A" [] [] =
      License.get_template cStatic "FETCHED_B" [] [] ∧
    License.Template.body tmplC = "TMPL" :=
  ⟨(c7_static_template_unconditional cStatic "TMPL" "FETCHED_A" "FETCHED_B" [] [] rfl).1,
   (c7_static_template_unconditional cStatic "TMPL" "FETCHED_A" "FETCHED_B" [] [] rfl).2
     tmplC rfl⟩

/-- C8: with no static template and auto-fetch disabled (absent or
false), `get_template` terminates with the configuration error whose
message names the offending license identifier, and never returns a
template. -/
theorem c8_missing_template_config_error (c : License.Config) (fetched : String)
    (nowDate : List Char) (dates : List (List Char))
    (ht : c.template = none)
    (ha : c.auto_template = none ∨ c.auto_template = some false) :
    License.get_template c fetched nowDate dates =
      .configExit ("auto_template not enabled and no template provided, please add a template option to the license definition for " ++ c.ident ++ ". Exitting") ∧
    ∀ tmpl, License.get_template c fetched nowDate dates ≠ .ok tmpl := by
  have hb : c.auto_template.getD false = false := by
    rcases ha with h | h <;> simp [h]
  have heq : License.get_template c fetched nowDate dates =
      .configExit ("auto_template not enabled and no template provided, please add a template option to the license definition for " ++ c.ident ++ ". Exitting") := by
    unfold License.get_template
    rw [ht, hb]
    rfl
  refine ⟨heq, fun tmpl h => ?_⟩
  rw [heq] at h
  exact License.TemplateResult.noConfusion h

/-- Witness for C8 at a concrete configuration with ident "MIT". -/
theorem c8_missing_template_config_error_witness :
    License.get_template cNoTmpl "FETCHED" [] [] =
      .configExit ("auto_template not enabled and no template provided, please add a template option to the license definition for " ++ "MIT" ++ ". Exitting") ∧
    License.get_template cNoTmpl "FETCHED" [] [] ≠ .ok tmplC :=
  ⟨(c8_missing_template_config_error cNoTmpl "FETCHED" [] [] rfl (Or.inr rfl)).1,
   (c8_missing_template_config_error cNoTmpl "FETCHED" [] [] rfl (Or.inr rfl)).2 tmplC⟩

/-- C9: for a successfully fetched and parsed registry response, the
template body is the standard-license-header field when the response
includes one, and otherwise the full license text field. -/
theorem c9_header_preferred (info : License.SPDXLicenseInfo) :
    (∀ h, info.license_header = some h → License.fetch_template_body info = h) ∧
    (info.license_header = none →
      License.fetch_template_body info = info.license_text) := by
  constructor
  · intro h hh
    unfold License.fetch_template_body
    rw [hh]
  · intro hn
    unfold License.fetch_template_body
    rw [hn]

/-- Witness for C9 at concrete registry responses. -/
theorem c9_header_preferred_witness :
    License.fetch_template_body ⟨"FULL", some "HEADER"⟩ = "HEADER" ∧
    License.fetch_template_body ⟨"FULL", none⟩ = "FULL" :=
  ⟨(c9_header_preferred ⟨"FULL", some "HEADER"⟩).1 "HEADER" rfl,
   (c9_header_preferred ⟨"FULL", none⟩).2 rfl⟩

/-- C10: the SPDX/standard-header marking of the returned template
depends only on `auto_template`: whenever `auto_template` is `some
true` and `get_template` returns a template, that template is marked as
an SPDX standard-header template — in particular even when a static
template string was configured and used, so no fetch occurred. -/
theorem c10_spdx_flag_from_auto_template (c : License.Config) (fetched : String)
    (nowDate : List Char) (dates : List (List Char)) (tmpl : License.Template)
    (ha : c.auto_template = some true)
    (hok : License.get_template c fetched nowDate dates = .ok tmpl) :
    tmpl.spdx_template = true := by
  have hb : c.auto_template.getD false = true := by rw [ha]; rfl
  unfold License.get_template at hok
  rw [hb] at hok
  cases hT : c.template with
  | some t =>
    rw [hT] at hok
    cases hres : License.resolveYears c nowDate dates with
    | error msg =>
      rw [hres] at hok
      simp at hok
    | ok years =>
      rw [hres] at hok
      simp only [if_true] at hok
      cases hok
      rfl
  | none =>
    rw [hT] at hok
    cases hres : License.resolveYears c nowDate dates with
    | error msg =>
      rw [hres] at hok
      simp at hok
    | ok years =>
      rw [hres] at hok
      simp only [if_true] at hok
      cases hok
      rfl

/-- Witness for C10: a configuration with both a static template and
`auto_template = some true` yields a template marked SPDX. -/
theorem c10_spdx_flag_from_auto_template_witness :
    License.Template.spdx_template tmplAuto = true :=
  c10_spdx_flag_from_auto_template cAuto "FETCHED" [] [] tmplAuto rfl rfl

end Licensure
